import Mathlib

/-!
Verification of the multithreaded logging demo (src/thread.cpp).

The program's core is:
* a global `atomic<int> seq_counter(1)` handing out sequence numbers via
  `fetch_add(1)`;
* `current_timestamp()` formatting local wall-clock time as `HH:MM:SS.mmm`;
* `print_thread_output(color, label, func_name)` composing a four-line block in
  a `stringstream` and writing it to the console with two stream insertions,
  `cout << ss.str() << "\x1b[0m"`;
* worker tasks `free_function` / `Foo::member_function`, and `main`, which
  logs once itself, prints a hardware-concurrency line, spawns 4 member-function
  threads and 3 free-function threads and joins them all.

Modelling choices, each taken from the source:
* `int` is modelled as a 32-bit two's complement integer, so `fetch_add(1)`
  wraps modulo 2^32 (C++ guarantees wrapping for atomic integral `fetch_add`);
* console output is modelled as the list of stream insertions performed — each
  `operator<<` call contributes one element;
* the wall clock is modelled as `nowMs : Nat`, the `system_clock` reading in
  milliseconds since the epoch, and `localtime_r` as adding a timezone offset
  (in seconds) and splitting the local second count into H/M/S fields;
* thread identifiers are opaque strings supplied as ambient inputs.
-/

/-- Two's complement wrap of an integer into the range of a 32-bit `int`,
`[-2^31, 2^31)`. -/
def int32_wrap (n : Int) : Int := (n + 2 ^ 31) % 2 ^ 32 - 2 ^ 31

/-- The value of `seq_counter` after `k` completed `fetch_add(1)` calls.
The source initializes it to 1: `atomic<int> seq_counter(1);`. -/
def seqState : Nat → Int
  | 0 => 1
  | k + 1 => int32_wrap (seqState k + 1)

/-- The value returned by the `k`-th call (1-indexed) to
`seq_counter.fetch_add(1)`: `fetch_add` returns the pre-increment value. -/
def seqVal (k : Nat) : Int := seqState (k - 1)

/-- The list of values returned by the first `N` calls to `fetch_add(1)` on a
freshly initialized counter. -/
def valsList (N : Nat) : List Int := (List.range N).map (fun i => seqVal (i + 1))

/-- The ANSI reset sequence `"\033[0m"` the source writes after every block. -/
def RESET : String := "\x1b[0m"

/-- The separator line literal from the source (lines 84 and 145). -/
def separator_line : String := "---------------------------------"

/-- Zero-padding to two digits, as `put_time`'s `%H`/`%M`/`%S` render values
below 100. -/
def pad2 (n : Nat) : String := if n < 10 then "0" ++ toString n else toString n

/-- Zero-padding to three digits, as `setfill('0') << setw(3)` renders the
millisecond count. -/
def pad3 (n : Nat) : String :=
  if n < 10 then "00" ++ toString n
  else if n < 100 then "0" ++ toString n
  else toString n

/-- `current_timestamp()` translated from the source: `ms` is the epoch
millisecond count modulo 1000 (`duration_cast<milliseconds>(...) % 1000`),
`t_c` the epoch second count (`to_time_t` truncates), `localtime_r` shifts by
the timezone offset `tz` (seconds) and splits into `tm` fields, and the result
is `put_time(&local_tm, "%H:%M:%S") << "." << setfill('0') << setw(3) << ms`. -/
def current_timestamp (nowMs : Nat) (tz : Int) : String :=
  let ms := nowMs % 1000
  let t_c : Int := (nowMs / 1000 : Nat)
  let localSecs : Int := t_c + tz
  let hour := (localSecs / 3600 % 24).toNat
  let minute := (localSecs / 60 % 60).toNat
  let second := (localSecs % 60).toNat
  pad2 hour ++ ":" ++ pad2 minute ++ ":" ++ pad2 second ++ "." ++ pad3 ms

/-- `current_timestamp()` with the program's one piece of global state (the
value of `seq_counter`) threaded through its body: every step of the source
body (`now`, `ms`, `t_c`, `local_tm`, `ss`) is a local, so the state `g` is
passed along untouched. -/
def current_timestamp_st (nowMs : Nat) (tz : Int) (g : Int) : String × Int :=
  let ms := nowMs % 1000
  let t_c : Int := (nowMs / 1000 : Nat)
  let localSecs : Int := t_c + tz
  let hour := (localSecs / 3600 % 24).toNat
  let minute := (localSecs / 60 % 60).toNat
  let second := (localSecs % 60).toNat
  (pad2 hour ++ ":" ++ pad2 minute ++ ":" ++ pad2 second ++ "." ++ pad3 ms, g)

/-- Decides the pattern `\d\x7b2\x7d:\d\x7b2\x7d:\d\x7b2\x7d\.\d\x7b3\x7d`:
twelve characters, digits in the `HH`/`MM`/`SS`/`mmm` positions, `:` at
positions 2 and 5, `.` at position 8. -/
def matchesTSPattern (s : String) : Bool :=
  match s.data with
  | [h1, h2, c1, m1, m2, c2, s1, s2, d1, x1, x2, x3] =>
      h1.isDigit && h2.isDigit && (c1 == ':') && m1.isDigit && m2.isDigit
        && (c2 == ':') && s1.isDigit && s2.isDigit && (d1 == '.')
        && x1.isDigit && x2.isDigit && x3.isDigit
  | _ => false

/-- The observable result of one `print_thread_output` call: the sequence
number it drew, the list of stream insertions it performed on `cout`, and the
`seq_counter` value it leaves behind. -/
structure EmitResult where
  seq : Int
  writes : List String
  next_state : Int

/-- `print_thread_output(color, label, func_name)` translated from the source:
`int seq = seq_counter.fetch_add(1);` draws the sequence number, the block is
composed in a `stringstream`, and the console receives two stream insertions,
`cout << ss.str() << "\x1b[0m"`. The timestamp string and the calling thread's
id are ambient inputs. -/
def print_thread_output (color label func_name ts thread_id : String) (s : Int) :
    EmitResult :=
  let seq := s
  let ss := color ++ "[" ++ ts ++ "] " ++ "#" ++ toString seq ++ " [" ++ label ++ "]\n"
      ++ "  Function : " ++ func_name ++ "\n"
      ++ "  Thread ID: " ++ thread_id ++ "\n"
      ++ separator_line ++ "\n"
  { seq := seq, writes := [ss, RESET], next_state := int32_wrap (s + 1) }

/-- The arguments of one call to the log emitter. -/
structure EmitCall where
  color : String
  label : String
  func_name : String

/-- Performing one recorded emitter call. -/
def emit_call (c : EmitCall) (ts thread_id : String) (s : Int) : EmitResult :=
  print_thread_output c.color c.label c.func_name ts thread_id s

/-- The emitter-call trace of `free_function(id)`: its body is the single
statement `print_thread_output("\x1b[32m", "free_function #" + to_string(id),
__func__)`. -/
def free_function_calls (id : Nat) : List EmitCall :=
  [{ color := "\x1b[32m", label := "free_function #" ++ toString id,
     func_name := "free_function" }]

/-- The emitter-call trace of `Foo::member_function(id)`: its body is the
single statement `print_thread_output("\x1b[34m", "Foo::member_function #" +
to_string(id), __func__)`; `__func__` inside the member is `"member_function"`. -/
def member_function_calls (id : Nat) : List EmitCall :=
  [{ color := "\x1b[34m", label := "Foo::member_function #" ++ toString id,
     func_name := "member_function" }]

/-- `free_function(id)` as a state transformer on `seq_counter`. -/
def free_function (id : Nat) (ts thread_id : String) (s : Int) : EmitResult :=
  print_thread_output "\x1b[32m" ("free_function #" ++ toString id)
    "free_function" ts thread_id s

/-- `Foo::member_function(id)` as a state transformer on `seq_counter`. -/
def Foo.member_function (id : Nat) (ts thread_id : String) (s : Int) : EmitResult :=
  print_thread_output "\x1b[34m" ("Foo::member_function #" ++ toString id)
    "member_function" ts thread_id s

/-- The two worker-task shapes `main` spawns: `Foo::member_function` bound to
`&foos[i]` with argument `i + 1`, and `free_function` with argument `i + 1`. -/
inductive WorkerTask where
  | member (id : Nat)
  | free (id : Nat)
deriving DecidableEq

/-- Whether a task is the object-bound shape. -/
def WorkerTask.isMember : WorkerTask → Bool
  | WorkerTask.member _ => true
  | WorkerTask.free _ => false

/-- Running one worker task. -/
def task_emit : WorkerTask → String → String → Int → EmitResult
  | WorkerTask.member id, ts, tid, s => Foo.member_function id ts tid s
  | WorkerTask.free id, ts, tid, s => free_function id ts tid s

/-- The worker threads `main` creates, in creation order: 4 member-function
threads with ids 1..4, then 3 free-function threads with ids 1..3. -/
def main_workers : List WorkerTask :=
  (List.range 4).map (fun i => WorkerTask.member (i + 1))
    ++ (List.range 3).map (fun i => WorkerTask.free (i + 1))

/-- Running a serialization of worker emits, threading `seq_counter`. `tsf k`
and `tidf k` supply the (arbitrary) timestamp and thread id observed by the
`k`-th emit of the program. -/
def runEmits (tsf tidf : Nat → String) :
    List WorkerTask → Nat → Int → List EmitResult × Int
  | [], _, s => ([], s)
  | t :: rest, k, s =>
      let r := task_emit t (tsf k) (tidf k) s
      let p := runEmits tsf tidf rest (k + 1) r.next_state
      (r :: p.1, p.2)

/-- One complete execution of the program's emits: `main` logs first, on the
freshly initialized counter (value 1) and before any thread is created
(source order: line 131 precedes the `emplace_back` loops); the 7 worker emits
then occur in an arbitrary serialization `order` of the created threads. -/
def main_run (order : List WorkerTask) (tsf tidf : Nat → String) : List EmitResult :=
  let r0 := print_thread_output "\x1b[33m" "main" "main" (tsf 0) (tidf 0) 1
  r0 :: (runEmits tsf tidf order 1 r0.next_state).1

/-- The hardware-concurrency report from `main` (source lines 143-145):
`cout << "[" << current_timestamp() << "] " << "Hardware concurrency: "
<< size << "\n" << "---...---\n"`. -/
def hw_concurrency_line (ts : String) (n : Nat) : String :=
  "[" ++ ts ++ "] " ++ "Hardware concurrency: " ++ toString n ++ "\n"
    ++ separator_line ++ "\n"

/-! ## Helper lemmas -/

theorem int32_wrap_eq_self (z : Int) (h1 : -2 ^ 31 ≤ z) (h2 : z < 2 ^ 31) :
    int32_wrap z = z := by
  unfold int32_wrap
  omega

theorem seqState_eq (k : Nat) : seqState k = int32_wrap (1 + k) := by
  induction k with
  | zero => decide
  | succ k ih =>
      show int32_wrap (seqState k + 1) = int32_wrap (1 + (k + 1 : Nat))
      rw [ih]
      unfold int32_wrap
      push_cast
      omega

theorem seqVal_succ (i : Nat) : seqVal (i + 1) = int32_wrap (1 + i) := by
  show seqState (i + 1 - 1) = int32_wrap (1 + i)
  rw [show i + 1 - 1 = i from rfl, seqState_eq]

set_option maxRecDepth 4000 in
theorem pad2_digits :
    ∀ n : Nat, n < 100 → (pad2 n).length = 2 ∧ (pad2 n).data.all Char.isDigit = true := by
  decide

set_option maxRecDepth 40000 in
theorem pad3_digits :
    ∀ n : Nat, n < 1000 → (pad3 n).length = 3 ∧ (pad3 n).data.all Char.isDigit = true := by
  decide

theorem pad2_data (n : Nat) (h : n < 100) :
    ∃ a b, (pad2 n).data = [a, b] ∧ a.isDigit ∧ b.isDigit := by
  obtain ⟨hl, hd⟩ := pad2_digits n h
  obtain ⟨a, b, hab⟩ := List.length_eq_two.mp hl
  have hab' : (pad2 n).data = [a, b] := hab
  rw [hab'] at hd
  simp [List.all_cons] at hd
  exact ⟨a, b, hab', hd.1, hd.2⟩

theorem pad3_data (n : Nat) (h : n < 1000) :
    ∃ a b c, (pad3 n).data = [a, b, c] ∧ a.isDigit ∧ b.isDigit ∧ c.isDigit := by
  obtain ⟨hl, hd⟩ := pad3_digits n h
  obtain ⟨a, b, c, habc⟩ := List.length_eq_three.mp hl
  have habc' : (pad3 n).data = [a, b, c] := habc
  rw [habc'] at hd
  simp [List.all_cons] at hd
  exact ⟨a, b, c, habc', hd.1, hd.2.1, hd.2.2⟩

theorem matchesTSPattern_build (a b c d e f g h i : Char) (s : String)
    (hs : s.data = [a, b, ':', c, d, ':', e, f, '.', g, h, i])
    (ha : a.isDigit) (hb : b.isDigit) (hc : c.isDigit) (hd : d.isDigit)
    (he : e.isDigit) (hf : f.isDigit) (hg : g.isDigit) (hh : h.isDigit)
    (hi : i.isDigit) : matchesTSPattern s = true := by
  unfold matchesTSPattern
  rw [hs]
  simp [ha, hb, hc, hd, he, hf, hg, hh, hi]

theorem timestamp_matches (nowMs : Nat) (tz : Int) :
    matchesTSPattern (current_timestamp nowMs tz) = true := by
  have hH : ((((nowMs / 1000 : Nat) : Int) + tz) / 3600 % 24).toNat < 100 := by omega
  have hM : ((((nowMs / 1000 : Nat) : Int) + tz) / 60 % 60).toNat < 100 := by omega
  have hS : ((((nowMs / 1000 : Nat) : Int) + tz) % 60).toNat < 100 := by omega
  have hms : nowMs % 1000 < 1000 := by omega
  obtain ⟨a, b, hab, hda, hdb⟩ := pad2_data _ hH
  obtain ⟨c, d, hcd, hdc, hdd⟩ := pad2_data _ hM
  obtain ⟨e, f, hef, hde, hdf⟩ := pad2_data _ hS
  obtain ⟨g, h, i, hghi, hdg, hdh, hdi⟩ := pad3_data _ hms
  apply matchesTSPattern_build a b c d e f g h i _ _ hda hdb hdc hdd hde hdf hdg hdh hdi
  show (pad2 ((((nowMs / 1000 : Nat) : Int) + tz) / 3600 % 24).toNat ++ ":"
      ++ pad2 ((((nowMs / 1000 : Nat) : Int) + tz) / 60 % 60).toNat ++ ":"
      ++ pad2 ((((nowMs / 1000 : Nat) : Int) + tz) % 60).toNat ++ "."
      ++ pad3 (nowMs % 1000)).data = _
  simp only [String.data_append, hab, hcd, hef, hghi]
  rfl

/-! ## Claim theorems -/

/-- Claim C3, counterexample: the source writes `cout << ss.str() << "\x1b[0m"`
— two stream insertions, not one. At the concrete arguments of `main`'s own
call, the emit performs 2 console writes, so it is false that the prefix,
block, and reset suffix are delivered in one console write call. -/
theorem c3_counterexample :
    (print_thread_output "\x1b[33m" "main" "main" "10:54:37.829" "6828" 1).writes.length = 2 ∧
    ¬ (print_thread_output "\x1b[33m" "main" "main" "10:54:37.829" "6828" 1).writes.length = 1 := by
  exact ⟨rfl, by decide⟩

/-- Claim C3, amended: every call to `print_thread_output` delivers its output
in exactly two console write calls: the first carries the caller-chosen color
prefix followed by the whole composed five-field block, the second the fixed
color-reset suffix; the prefix and block are never split across writes. -/
theorem c3_two_writes (color label fn ts tid : String) (s : Int) :
    (print_thread_output color label fn ts tid s).writes =
      [color ++ "[" ++ ts ++ "] " ++ "#" ++ toString s ++ " [" ++ label ++ "]\n"
        ++ "  Function : " ++ fn ++ "\n"
        ++ "  Thread ID: " ++ tid ++ "\n"
        ++ separator_line ++ "\n", RESET] ∧
    (print_thread_output color label fn ts tid s).writes.length = 2 :=
  ⟨rfl, rfl⟩

/-- Claim C4: the text a `print_thread_output` call delivers to the console is
exactly `[TIMESTAMP] #SEQ [LABEL]`, then `  Function : FUNC_NAME`, then
`  Thread ID: THREAD_ID`, then the fixed 33-character separator line of
dashes, each line newline-terminated, the whole block preceded by the
caller-supplied color escape and followed by the reset sequence. -/
theorem c4_block_structure (color label fn ts tid : String) (s : Int) :
    String.join (print_thread_output color label fn ts tid s).writes =
      color ++ "[" ++ ts ++ "] " ++ "#" ++ toString s ++ " [" ++ label ++ "]\n"
        ++ "  Function : " ++ fn ++ "\n"
        ++ "  Thread ID: " ++ tid ++ "\n"
        ++ separator_line ++ "\n" ++ RESET ∧
    separator_line = String.mk (List.replicate 33 '-') ∧
    separator_line.length = 33 ∧
    RESET = "\x1b[0m" := by
  refine ⟨?_, by decide, rfl, rfl⟩
  show ("" ++ (color ++ "[" ++ ts ++ "] " ++ "#" ++ toString s ++ " [" ++ label ++ "]\n"
        ++ "  Function : " ++ fn ++ "\n"
        ++ "  Thread ID: " ++ tid ++ "\n"
        ++ separator_line ++ "\n")) ++ RESET = _
  apply congrArg String.mk
  simp [String.data_append]

/-- Claim C5: for every wall-clock reading (`nowMs` milliseconds since the
epoch) and timezone offset, `current_timestamp` returns a string matching
`\d\x7b2\x7d:\d\x7b2\x7d:\d\x7b2\x7d\.\d\x7b3\x7d`: hour at most 23, minute and
second at most 59, and the millisecond field is the sub-second remainder
`nowMs % 1000` — truncated, not rounded — zero-padded to 3 digits. -/
theorem c5_timestamp_format (nowMs : Nat) (tz : Int) :
    matchesTSPattern (current_timestamp nowMs tz) = true ∧
    (∃ h m s, h ≤ 23 ∧ m ≤ 59 ∧ s ≤ 59 ∧
      current_timestamp nowMs tz =
        pad2 h ++ ":" ++ pad2 m ++ ":" ++ pad2 s ++ "." ++ pad3 (nowMs % 1000)) ∧
    nowMs % 1000 ≤ 999 := by
  refine ⟨timestamp_matches nowMs tz, ?_, by omega⟩
  refine ⟨((((nowMs / 1000 : Nat) : Int) + tz) / 3600 % 24).toNat,
    ((((nowMs / 1000 : Nat) : Int) + tz) / 60 % 60).toNat,
    ((((nowMs / 1000 : Nat) : Int) + tz) % 60).toNat,
    by omega, by omega, by omega, rfl⟩

/-- Claim C7: each worker task calls the log emitter exactly once —
`free_function` with the green escape, label `free_function #ID` and its own
name as function-name field, `Foo::member_function` with the blue escape, label
`Foo::member_function #ID` and its own (unqualified) name — and the two colors
are distinct. -/
theorem c7_worker_tasks (id : Nat) (ts tid : String) (s : Int) :
    (free_function_calls id).length = 1 ∧
    (member_function_calls id).length = 1 ∧
    (∀ c ∈ free_function_calls id,
      c.color = "\x1b[32m" ∧ c.func_name = "free_function" ∧
        c.label = "free_function #" ++ toString id) ∧
    (∀ c ∈ member_function_calls id,
      c.color = "\x1b[34m" ∧ c.func_name = "member_function" ∧
        c.label = "Foo::member_function #" ++ toString id) ∧
    free_function id ts tid s = emit_call
      { color := "\x1b[32m", label := "free_function #" ++ toString id,
        func_name := "free_function" } ts tid s ∧
    Foo.member_function id ts tid s = emit_call
      { color := "\x1b[34m", label := "Foo::member_function #" ++ toString id,
        func_name := "member_function" } ts tid s ∧
    ("\x1b[32m" : String) ≠ "\x1b[34m" := by
  refine ⟨rfl, rfl, ?_, ?_, rfl, rfl, by decide⟩
  · intro c hc
    rw [List.mem_singleton.mp hc]
    exact ⟨rfl, rfl, rfl⟩
  · intro c hc
    rw [List.mem_singleton.mp hc]
    exact ⟨rfl, rfl, rfl⟩

/-- Claim C8: the coordinator's informational line has the literal shape
`[TIMESTAMP] Hardware concurrency: N` followed by the same 33-character
separator line; the timestamp comes from the same formatter and matches the
same pattern, and the reported count `N : Nat` is an integer that is at
least 0. -/
theorem c8_hw_line (nowMs : Nat) (tz : Int) (n : Nat) :
    hw_concurrency_line (current_timestamp nowMs tz) n =
      "[" ++ current_timestamp nowMs tz ++ "] " ++ "Hardware concurrency: "
        ++ toString n ++ "\n" ++ separator_line ++ "\n" ∧
    matchesTSPattern (current_timestamp nowMs tz) = true ∧
    separator_line = String.mk (List.replicate 33 '-') ∧
    0 ≤ n :=
  ⟨rfl, timestamp_matches nowMs tz, by decide, Nat.zero_le n⟩

/-- Claim C9: `current_timestamp` with the program's global state (the
`seq_counter` value `g`) threaded through its body leaves that state
unchanged, and its string result depends only on the wall-clock reading, not
on the state; being a total function, it raises no error on any clock
reading. -/
theorem c9_timestamp_frame :
    (∀ nowMs : Nat, ∀ tz g : Int, (current_timestamp_st nowMs tz g).2 = g) ∧
    (∀ nowMs : Nat, ∀ tz g g' : Int,
      (current_timestamp_st nowMs tz g).1 = (current_timestamp_st nowMs tz g').1) ∧
    (∀ nowMs : Nat, ∀ tz g : Int,
      (current_timestamp_st nowMs tz g).1 = current_timestamp nowMs tz) :=
  ⟨fun _ _ _ => rfl, fun _ _ _ _ => rfl, fun _ _ _ => rfl⟩

theorem valsList_eq_of_le (N : Nat) (h : N ≤ 2 ^ 31 - 1) :
    valsList N = (List.range N).map (fun i : Nat => (i : Int) + 1) := by
  unfold valsList
  apply List.map_congr_left
  intro i hi
  have hiN : i < N := List.mem_range.mp hi
  rw [seqVal_succ, int32_wrap_eq_self]
  · omega
  · omega
  · omega

/-- Claim C1, amended: for every `N` up to `2^31 - 1` (the largest count before
the 32-bit counter would wrap), the `N` values returned by `fetch_add(1)` on
the freshly initialized counter are exactly `1, 2, ..., N` in call order —
pairwise distinct, none skipped, none duplicated. -/
theorem c1_seq_values (N : Nat) (h : N ≤ 2 ^ 31 - 1) :
    valsList N = (List.range N).map (fun i : Nat => (i : Int) + 1) ∧ (valsList N).Nodup := by
  have he := valsList_eq_of_le N h
  refine ⟨he, ?_⟩
  rw [he]
  have hinj : Function.Injective (fun i : Nat => (i : Int) + 1) := by
    intro a b hab
    simp only [add_left_inj, Nat.cast_inj] at hab
    exact hab
  exact List.Nodup.map hinj (List.nodup_range N)

/-- Claim C1, witness at `N = 8` (the run the program performs). -/
theorem c1_seq_values_witness :
    8 ≤ 2 ^ 31 - 1 ∧
      (valsList 8 = (List.range 8).map (fun i : Nat => (i : Int) + 1) ∧ (valsList 8).Nodup) :=
  ⟨by decide, c1_seq_values 8 (by decide)⟩

/-- Claim C1, counterexample to "for every N": at `N = 2^31` the multiset of
returned values is not `\x7b1, ..., N\x7d` — the `2^31`-th call returns
`-2^31`, since `fetch_add` on the 32-bit counter wraps. -/
theorem c1_counterexample :
    Multiset.ofList (valsList (2 ^ 31))
      ≠ Multiset.ofList ((List.range (2 ^ 31)).map (fun i : Nat => (i : Int) + 1)) := by
  intro hEq
  have hp : List.Perm (valsList (2 ^ 31))
      ((List.range (2 ^ 31)).map (fun i : Nat => (i : Int) + 1)) :=
    Multiset.coe_eq_coe.mp hEq
  have hmem : (-(2 ^ 31) : Int) ∈ valsList (2 ^ 31) := by
    unfold valsList
    refine List.mem_map.mpr ⟨2 ^ 31 - 1, List.mem_range.mpr (by norm_num), ?_⟩
    show seqVal (2 ^ 31 - 1 + 1) = -(2 ^ 31)
    rw [show (2 : Nat) ^ 31 - 1 + 1 = 2147483647 + 1 from by norm_num, seqVal_succ]
    norm_num [int32_wrap]
  have h2 := hp.mem_iff.mp hmem
  obtain ⟨i, _, hi⟩ := List.mem_map.mp h2
  have hi' : (i : Int) + 1 = -(2 ^ 31) := hi
  omega

theorem valsList_pow32_nodup : (valsList (2 ^ 32)).Nodup := by
  unfold valsList
  refine List.Nodup.map_on ?_ (List.nodup_range _)
  intro a ha b hb hab
  have ha' : a < 2 ^ 32 := List.mem_range.mp ha
  have hb' : b < 2 ^ 32 := List.mem_range.mp hb
  rw [seqVal_succ, seqVal_succ] at hab
  unfold int32_wrap at hab
  omega

/-- Claim C10, amended: the counter is a 32-bit two's complement integer and
`fetch_add(1)` wraps modulo `2^32` — the value sequence is periodic with
period `2^32` — so distinctness holds while at most `2^32` calls have been
made (the first `2^32` values are pairwise distinct), and the first repeat
occurs at the `(2^32 + 1)`-th call, which returns the first call's value. -/
theorem c10_wraparound :
    (∀ k : Nat, seqVal (k + 1 + 2 ^ 32) = seqVal (k + 1)) ∧
    (valsList (2 ^ 32)).Nodup ∧
    seqVal (2 ^ 32 + 1) = seqVal 1 := by
  refine ⟨?_, valsList_pow32_nodup, ?_⟩
  · intro k
    rw [show k + 1 + 2 ^ 32 = (k + 2 ^ 32) + 1 from by omega, seqVal_succ, seqVal_succ]
    unfold int32_wrap
    push_cast
    omega
  · have h1 : seqVal 1 = 1 := rfl
    rw [seqVal_succ, h1]
    norm_num [int32_wrap]

/-- Claim C10, counterexample to "at the 2^32-th call the values repeat": the
first `2^32` returned values are pairwise distinct — no repeat has yet
occurred when exactly `2^32` calls have been made. -/
theorem c10_counterexample : (valsList (2 ^ 32)).Nodup := valsList_pow32_nodup

theorem task_emit_seq (t : WorkerTask) (ts tid : String) (s : Int) :
    (task_emit t ts tid s).seq = s ∧
      (task_emit t ts tid s).next_state = int32_wrap (s + 1) := by
  cases t <;> exact ⟨rfl, rfl⟩

theorem runEmits_seqs (tsf tidf : Nat → String) (tasks : List WorkerTask) :
    ∀ k : Nat, ∀ s : Int, 0 ≤ s → s + tasks.length < 2 ^ 31 →
      (runEmits tsf tidf tasks k s).1.map EmitResult.seq
        = (List.range tasks.length).map (fun i : Nat => s + (i : Int)) := by
  induction tasks with
  | nil => intro k s h0 hlt; rfl
  | cons t rest ih =>
      intro k s h0 hlt
      have hlen : (t :: rest).length = rest.length + 1 := rfl
      rw [hlen] at hlt
      push_cast at hlt
      have hns : (task_emit t (tsf k) (tidf k) s).next_state = s + 1 := by
        rw [(task_emit_seq t (tsf k) (tidf k) s).2]
        apply int32_wrap_eq_self <;> omega
      show ((task_emit t (tsf k) (tidf k) s)
          :: (runEmits tsf tidf rest (k + 1)
               (task_emit t (tsf k) (tidf k) s).next_state).1).map EmitResult.seq = _
      rw [List.map_cons, (task_emit_seq t (tsf k) (tidf k) s).1, hns,
        ih (k + 1) (s + 1) (by omega) (by push_cast; omega)]
      rw [show (t :: rest).length = rest.length + 1 from rfl, List.range_succ_eq_map]
      simp only [List.map_cons, List.map_map]
      congr 1
      · norm_num
      · apply List.map_congr_left
        intro i _
        show s + 1 + (i : Int) = s + ((i : Nat) + 1 : Nat)
        push_cast
        ring

/-- Claim C6: `main` emits its own startup block first, on the freshly
initialized counter and before creating any worker; it creates 4 object-bound
and 3 standalone workers; and in every serialization `order` of those 7
workers, exactly 8 blocks are emitted whose sequence numbers are `1..8` in
emission order (hence a permutation of `\x7b1,...,8\x7d` over the threads),
with the coordinator's block holding sequence number 1. -/
theorem c6_main_schedule (order : List WorkerTask) (h : order.Perm main_workers)
    (tsf tidf : Nat → String) :
    (main_run order tsf tidf).length = 8 ∧
    (main_run order tsf tidf).map EmitResult.seq = [1, 2, 3, 4, 5, 6, 7, 8] ∧
    (main_run order tsf tidf).head? =
      some (print_thread_output "\x1b[33m" "main" "main" (tsf 0) (tidf 0) 1) ∧
    (print_thread_output "\x1b[33m" "main" "main" (tsf 0) (tidf 0) 1).seq = 1 ∧
    main_workers.countP WorkerTask.isMember = 4 ∧
    main_workers.countP (fun t => ! WorkerTask.isMember t) = 3 := by
  have hlen : order.length = 7 := by
    rw [h.length_eq]
    decide
  have hrw : main_run order tsf tidf
      = print_thread_output "\x1b[33m" "main" "main" (tsf 0) (tidf 0) 1
        :: (runEmits tsf tidf order 1 2).1 := rfl
  have hmap : (main_run order tsf tidf).map EmitResult.seq = [1, 2, 3, 4, 5, 6, 7, 8] := by
    rw [hrw, List.map_cons,
      runEmits_seqs tsf tidf order 1 2 (by norm_num) (by rw [hlen]; norm_num), hlen]
    rw [show (print_thread_output "\x1b[33m" "main" "main" (tsf 0) (tidf 0) 1).seq
      = (1 : Int) from rfl]
    decide
  refine ⟨?_, hmap, ?_, rfl, by decide, by decide⟩
  · have hc := congrArg List.length hmap
    simpa using hc
  · rw [hrw]
    rfl

/-- Claim C6, witness: the creation-order serialization with empty timestamp
and thread-id inputs. -/
theorem c6_main_schedule_witness :
    List.Perm main_workers main_workers ∧
    ((main_run main_workers (fun _ => "") (fun _ => "")).length = 8 ∧
      (main_run main_workers (fun _ => "") (fun _ => "")).map EmitResult.seq
        = [1, 2, 3, 4, 5, 6, 7, 8] ∧
      (main_run main_workers (fun _ => "") (fun _ => "")).head? =
        some (print_thread_output "\x1b[33m" "main" "main" "" "" 1) ∧
      (print_thread_output "\x1b[33m" "main" "main" "" "" 1).seq = 1 ∧
      main_workers.countP WorkerTask.isMember = 4 ∧
      main_workers.countP (fun t => ! WorkerTask.isMember t) = 3) :=
  ⟨List.Perm.refl _,
    c6_main_schedule main_workers (List.Perm.refl _) (fun _ => "") (fun _ => "")⟩
